import Mathlib

/-!
Shallow embedding of `dials/geometry/transform/from_beam_vector_to_detector.h`:
the `FromBeamVectorToDetector` transform mapping a beam vector (3D direction
from the crystal sample) to 2D pixel coordinates on a planar detector.

Real (`double`) arithmetic is modelled by `ℝ`.  The C++ scalar `apply` throws
`dials::error` when `DIALS_ASSERT(distance_ * s1_dot_n > 0)` fails; here it
returns `Except GeometryError Vec2`.  The batch `apply` catches that error per
element and writes the sentinel `(-1, -1)`; here it is a `List.map` over the
`Except` result.
-/

noncomputable section

namespace Dials

/-- A 2-component real vector (`scitbx::vec2<double>`). -/
structure Vec2 where
  x : ℝ
  y : ℝ


/-- A 3-component real vector (`scitbx::vec3<double>`). -/
structure Vec3 where
  x : ℝ
  y : ℝ
  z : ℝ


namespace Vec3

/-- Dot product (`operator*` of `scitbx::vec3`). -/
def dot (a b : Vec3) : ℝ := a.x * b.x + a.y * b.y + a.z * b.z

/-- Euclidean length (`scitbx::vec3::length`, `sqrt(length_sq())`). -/
def length (v : Vec3) : ℝ := Real.sqrt (dot v v)

/-- Unit normalisation (`scitbx::vec3::normalize`, `(*this) / length()`). -/
def normalize (v : Vec3) : Vec3 :=
  ⟨v.x / length v, v.y / length v, v.z / length v⟩

/-- Component-wise division by a scalar (`scitbx::vec3::operator/`). -/
def divScalar (v : Vec3) (s : ℝ) : Vec3 := ⟨v.x / s, v.y / s, v.z / s⟩

/-- Scalar multiple of a vector. -/
def smul (l : ℝ) (v : Vec3) : Vec3 := ⟨l * v.x, l * v.y, l * v.z⟩

end Vec3

/-- Modelled from the spec: the detector coordinate system descriptor
(`DetectorCoordinateSystem` from `detector_coordinate_system.h`, not under
`src/`): three 3D vectors `x_axis`, `y_axis`, `normal` defining the detector
plane's orientation, with trivial accessors `get_x_axis`, `get_y_axis`,
`get_normal`. -/
structure DetectorCoordinateSystem where
  x_axis : Vec3
  y_axis : Vec3
  normal : Vec3

namespace DetectorCoordinateSystem

/-- Accessor `get_x_axis`. -/
def get_x_axis (dcs : DetectorCoordinateSystem) : Vec3 := dcs.x_axis

/-- Accessor `get_y_axis`. -/
def get_y_axis (dcs : DetectorCoordinateSystem) : Vec3 := dcs.y_axis

/-- Accessor `get_normal`. -/
def get_normal (dcs : DetectorCoordinateSystem) : Vec3 := dcs.normal

end DetectorCoordinateSystem

/-- The single error kind of the transform: the beam vector does not cross
the detector plane in the forward direction (`DIALS_ASSERT` failure throwing
`dials::error`). -/
inductive GeometryError where
  | notIntersecting
deriving DecidableEq

/-- The state of a `FromBeamVectorToDetector` transform: its five stored
fields (`x_axis_`, `y_axis_`, `normal_`, `origin_`, `distance_`). -/
structure FromBeamVectorToDetector where
  x_axis : Vec3
  y_axis : Vec3
  normal : Vec3
  origin : Vec2
  distance : ℝ

namespace FromBeamVectorToDetector

/-- The parameterised constructor: normalises the detector axes, rescales the
in-plane axes by the reciprocal pixel pitch, and stores origin and distance
verbatim. -/
def init (dcs : DetectorCoordinateSystem) (pixel_size : Vec2) (origin : Vec2)
    (distance : ℝ) : FromBeamVectorToDetector :=
  { x_axis := (dcs.get_x_axis.normalize).divScalar pixel_size.x
    y_axis := (dcs.get_y_axis.normalize).divScalar pixel_size.y
    normal := dcs.get_normal.normalize
    origin := origin
    distance := distance }

/-- Scalar `apply`: guard `distance_ * s1_dot_n > 0`, then the perspective
projection formula; on guard failure, a `GeometryError`. -/
def apply (t : FromBeamVectorToDetector) (s1 : Vec3) : Except GeometryError Vec2 :=
  let s1_dot_n := s1.dot t.normal
  if 0 < t.distance * s1_dot_n then
    .ok ⟨t.origin.x + t.distance * (s1.dot t.x_axis) / s1_dot_n,
         t.origin.y + t.distance * (s1.dot t.y_axis) / s1_dot_n⟩
  else
    .error GeometryError.notIntersecting

/-- Batch `apply`: element-wise scalar `apply`, with each failing element
replaced by the sentinel `(-1, -1)`. -/
def applyBatch (t : FromBeamVectorToDetector) (s1 : List Vec3) : List Vec2 :=
  s1.map fun v =>
    match t.apply v with
    | .ok r => r
    | .error _ => ⟨-1, -1⟩

end FromBeamVectorToDetector

/-- The identity-like detector coordinate system used by spec property P2:
world axes. -/
def idDCS : DetectorCoordinateSystem := ⟨⟨1, 0, 0⟩, ⟨0, 1, 0⟩, ⟨0, 0, 1⟩⟩

namespace FromBeamVectorToDetector

/-- Unfolding of `apply` when the forward-direction guard holds. -/
theorem apply_of_pos {t : FromBeamVectorToDetector} {s1 : Vec3}
    (h : 0 < t.distance * s1.dot t.normal) :
    t.apply s1 = .ok
      ⟨t.origin.x + t.distance * (s1.dot t.x_axis) / s1.dot t.normal,
       t.origin.y + t.distance * (s1.dot t.y_axis) / s1.dot t.normal⟩ := by
  simp only [apply, if_pos h]

/-- Unfolding of `apply` when the forward-direction guard fails. -/
theorem apply_of_nonpos {t : FromBeamVectorToDetector} {s1 : Vec3}
    (h : ¬ 0 < t.distance * s1.dot t.normal) :
    t.apply s1 = .error GeometryError.notIntersecting := by
  simp only [apply, if_neg h]

/-- `apply` succeeds exactly when the guard holds, and then with the
projection formula as value. -/
theorem apply_ok_iff {t : FromBeamVectorToDetector} {s1 : Vec3} {r : Vec2} :
    t.apply s1 = .ok r ↔
      0 < t.distance * s1.dot t.normal ∧
      r = ⟨t.origin.x + t.distance * (s1.dot t.x_axis) / s1.dot t.normal,
           t.origin.y + t.distance * (s1.dot t.y_axis) / s1.dot t.normal⟩ := by
  by_cases h : 0 < t.distance * s1.dot t.normal
  · rw [apply_of_pos h]
    simp [h, eq_comm]
  · rw [apply_of_nonpos h]
    simp [h]

/-- `apply` fails exactly when the guard fails. -/
theorem apply_error_iff {t : FromBeamVectorToDetector} {s1 : Vec3} {e : GeometryError} :
    t.apply s1 = .error e ↔ t.distance * s1.dot t.normal ≤ 0 := by
  by_cases h : 0 < t.distance * s1.dot t.normal
  · rw [apply_of_pos h]
    simp [not_le.mpr h]
  · rw [apply_of_nonpos h]
    rcases e
    simp [not_lt.mp h]

/-- The batch result has the same length as the input. -/
theorem applyBatch_length (t : FromBeamVectorToDetector) (s1 : List Vec3) :
    (t.applyBatch s1).length = s1.length := by
  simp [applyBatch]

/-- Element `i` of the batch result, as a function of element `i` of the
input. -/
theorem applyBatch_getElem? (t : FromBeamVectorToDetector) (s1 : List Vec3)
    (i : ℕ) :
    (t.applyBatch s1)[i]? = (s1[i]?).map fun v =>
      match t.apply v with
      | .ok r => r
      | .error _ => ⟨-1, -1⟩ := by
  simp [applyBatch]

end FromBeamVectorToDetector

namespace Vec3

/-- Sum-of-squares self dot product is positive off the zero vector. -/
theorem dot_self_pos {v : Vec3} (h : v ≠ ⟨0, 0, 0⟩) : 0 < dot v v := by
  rcases v with ⟨a, b, c⟩
  have h2 : a ≠ 0 ∨ b ≠ 0 ∨ c ≠ 0 := by
    by_contra hc
    push_neg at hc
    exact h (by simp [hc.1, hc.2.1, hc.2.2])
  simp only [dot]
  rcases h2 with h2 | h2 | h2 <;>
    nlinarith [mul_self_pos.mpr h2, mul_self_nonneg a, mul_self_nonneg b,
      mul_self_nonneg c]

/-- The length is positive off the zero vector. -/
theorem length_pos {v : Vec3} (h : v ≠ ⟨0, 0, 0⟩) : 0 < length v :=
  Real.sqrt_pos.mpr (dot_self_pos h)

/-- `normalize` produces a unit vector (off the zero vector). -/
theorem length_normalize {v : Vec3} (h : v ≠ ⟨0, 0, 0⟩) :
    length (normalize v) = 1 := by
  have hd := dot_self_pos h
  have hl := length_pos h
  have hll : length v * length v = dot v v := Real.mul_self_sqrt hd.le
  have hdot : dot (normalize v) (normalize v) = 1 := by
    rcases v with ⟨a, b, c⟩
    simp only [normalize, dot] at hll hd ⊢
    field_simp
    linarith [hll]
  rw [length, hdot, Real.sqrt_one]

/-- Normalising an already-unit basis vector is the identity: x world axis. -/
theorem normalize_ex : normalize ⟨1, 0, 0⟩ = ⟨1, 0, 0⟩ := by
  simp [normalize, length, dot]

/-- Normalising an already-unit basis vector is the identity: y world axis. -/
theorem normalize_ey : normalize ⟨0, 1, 0⟩ = ⟨0, 1, 0⟩ := by
  simp [normalize, length, dot]

/-- Normalising an already-unit basis vector is the identity: z world axis. -/
theorem normalize_ez : normalize ⟨0, 0, 1⟩ = ⟨0, 0, 1⟩ := by
  simp [normalize, length, dot]

end Vec3

/-- The identity-like transform of spec property P2 has the world axes as
stored fields, for any `pixel_size = (1,1)` build. -/
theorem init_idDCS (origin : Vec2) (D : ℝ) :
    FromBeamVectorToDetector.init idDCS ⟨1, 1⟩ origin D =
      ⟨⟨1, 0, 0⟩, ⟨0, 1, 0⟩, ⟨0, 0, 1⟩, origin, D⟩ := by
  simp [FromBeamVectorToDetector.init, idDCS, DetectorCoordinateSystem.get_x_axis,
    DetectorCoordinateSystem.get_y_axis, DetectorCoordinateSystem.get_normal,
    Vec3.normalize_ex, Vec3.normalize_ey, Vec3.normalize_ez, Vec3.divScalar]

open FromBeamVectorToDetector in
/-- Claim C1: for every transform constructed from a detector coordinate
system, pixel size, origin and distance, and every beam vector `s1` with
`distance * dot(s1, normal) > 0`, the scalar `apply` returns exactly
`(origin.x + distance * dot(s1, x_axis) / dot(s1, normal),
origin.y + distance * dot(s1, y_axis) / dot(s1, normal))` with the stored
pixel-scaled axes; in particular, for the identity-like transform with
distance `D` and `s1 = (a, b, c)` with `D * c > 0`, `apply` returns
`(D * a / c, D * b / c)`. -/
theorem c1_scalar_apply_formula :
    (∀ (dcs : DetectorCoordinateSystem) (pixel_size origin : Vec2)
       (distance : ℝ) (s1 : Vec3),
       0 < distance * s1.dot (init dcs pixel_size origin distance).normal →
       (init dcs pixel_size origin distance).apply s1 = .ok
         ⟨origin.x + distance * (s1.dot (init dcs pixel_size origin distance).x_axis)
            / s1.dot (init dcs pixel_size origin distance).normal,
          origin.y + distance * (s1.dot (init dcs pixel_size origin distance).y_axis)
            / s1.dot (init dcs pixel_size origin distance).normal⟩) ∧
    (∀ (D a b c : ℝ), 0 < D * c →
       (init idDCS ⟨1, 1⟩ ⟨0, 0⟩ D).apply ⟨a, b, c⟩ = .ok ⟨D * a / c, D * b / c⟩) := by
  constructor
  · intro dcs pixel_size origin distance s1 h
    rw [apply_of_pos h]
    rfl
  · intro D a b c h
    rw [init_idDCS]
    have hg : 0 < (⟨⟨1, 0, 0⟩, ⟨0, 1, 0⟩, ⟨0, 0, 1⟩, ⟨0, 0⟩, D⟩ :
        FromBeamVectorToDetector).distance *
        Vec3.dot ⟨a, b, c⟩ (⟨⟨1, 0, 0⟩, ⟨0, 1, 0⟩, ⟨0, 0, 1⟩, ⟨0, 0⟩, D⟩ :
        FromBeamVectorToDetector).normal := by
      simpa [Vec3.dot] using h
    rw [apply_of_pos hg]
    simp only [Vec3.dot, Except.ok.injEq, Vec2.mk.injEq]
    constructor <;> ring

/-- Witness for C1 at the identity-like transform with `D = 5` and
`s1 = (2, 3, 1)`. -/
theorem c1_scalar_apply_formula_witness :
    (FromBeamVectorToDetector.init idDCS ⟨1, 1⟩ ⟨0, 0⟩ 5).apply ⟨2, 3, 1⟩ =
      .ok ⟨10, 15⟩ := by
  have h := c1_scalar_apply_formula.2 5 2 3 1 (by norm_num)
  norm_num at h
  exact h

open FromBeamVectorToDetector in
/-- Claim C2: for every constructed transform and every beam vector, the
scalar `apply` fails with the (unique) `GeometryError` exactly when
`distance * dot(s1, normal) ≤ 0`, and whenever it returns a result the guard
held. -/
theorem c2_error_iff :
    ∀ (dcs : DetectorCoordinateSystem) (pixel_size origin : Vec2)
      (distance : ℝ) (s1 : Vec3),
      ((init dcs pixel_size origin distance).apply s1 =
          .error GeometryError.notIntersecting ↔
        distance * s1.dot (init dcs pixel_size origin distance).normal ≤ 0) ∧
      ∀ r, (init dcs pixel_size origin distance).apply s1 = .ok r →
        0 < distance * s1.dot (init dcs pixel_size origin distance).normal := by
  intro dcs pixel_size origin distance s1
  refine ⟨apply_error_iff, fun r hr => (apply_ok_iff.mp hr).1⟩

/-- Witness for C2: the world-axes transform at distance 100 rejects the
backward beam vector `(0, 0, -1)`. -/
theorem c2_error_iff_witness :
    (FromBeamVectorToDetector.init idDCS ⟨1, 1⟩ ⟨0, 0⟩ 100).apply ⟨0, 0, -1⟩ =
      .error GeometryError.notIntersecting := by
  refine (c2_error_iff idDCS ⟨1, 1⟩ ⟨0, 0⟩ 100 ⟨0, 0, -1⟩).1.mpr ?_
  rw [init_idDCS]
  norm_num [Vec3.dot]

open FromBeamVectorToDetector in
/-- Claim C4: the constructor stores `x_axis` as the unit-normalised detector
x-axis divided by `pixel_size.x`, `y_axis` as the unit-normalised detector
y-axis divided by `pixel_size.y`, `normal` as the unit-normalised detector
normal, and `origin` and `distance` unchanged; off the zero vector the
normalised vectors indeed have unit length. -/
theorem c4_constructor_fields :
    ∀ (dcs : DetectorCoordinateSystem) (pixel_size origin : Vec2) (distance : ℝ),
      ((init dcs pixel_size origin distance).x_axis =
          (dcs.x_axis.normalize).divScalar pixel_size.x ∧
       (init dcs pixel_size origin distance).y_axis =
          (dcs.y_axis.normalize).divScalar pixel_size.y ∧
       (init dcs pixel_size origin distance).normal = dcs.normal.normalize ∧
       (init dcs pixel_size origin distance).origin = origin ∧
       (init dcs pixel_size origin distance).distance = distance) ∧
      (dcs.x_axis ≠ ⟨0, 0, 0⟩ → Vec3.length dcs.x_axis.normalize = 1) ∧
      (dcs.y_axis ≠ ⟨0, 0, 0⟩ → Vec3.length dcs.y_axis.normalize = 1) ∧
      (dcs.normal ≠ ⟨0, 0, 0⟩ →
        Vec3.length (init dcs pixel_size origin distance).normal = 1) := by
  intro dcs pixel_size origin distance
  exact ⟨⟨rfl, rfl, rfl, rfl, rfl⟩,
    fun h => Vec3.length_normalize h,
    fun h => Vec3.length_normalize h,
    fun h => Vec3.length_normalize h⟩

/-- Witness for C4 at a concrete coordinate system: origin and distance are
stored verbatim and the stored normal is a unit vector. -/
theorem c4_constructor_fields_witness :
    (FromBeamVectorToDetector.init ⟨⟨3, 4, 0⟩, ⟨0, 1, 0⟩, ⟨0, 0, 2⟩⟩ ⟨2, 2⟩
        ⟨5, 6⟩ 7).origin = ⟨5, 6⟩ ∧
    (FromBeamVectorToDetector.init ⟨⟨3, 4, 0⟩, ⟨0, 1, 0⟩, ⟨0, 0, 2⟩⟩ ⟨2, 2⟩
        ⟨5, 6⟩ 7).distance = 7 ∧
    Vec3.length (FromBeamVectorToDetector.init ⟨⟨3, 4, 0⟩, ⟨0, 1, 0⟩, ⟨0, 0, 2⟩⟩
        ⟨2, 2⟩ ⟨5, 6⟩ 7).normal = 1 := by
  have h := c4_constructor_fields ⟨⟨3, 4, 0⟩, ⟨0, 1, 0⟩, ⟨0, 0, 2⟩⟩ ⟨2, 2⟩ ⟨5, 6⟩ 7
  exact ⟨h.1.2.2.2.1, h.1.2.2.2.2, h.2.2.2 (by simp)⟩

open FromBeamVectorToDetector in
/-- Claim C5: for the world-axes transform with `pixel_size = (1,1)`,
`origin = (0,0)`, `distance = 100`: scalar `apply` on `(0,0,1)` gives
`(0,0)`, on `(0,0,-1)` a `GeometryError`, and the batch `apply` on
`[(0,0,1), (0,0,-1), (1,1,1)]` gives `[(0,0), (-1,-1), (100,100)]`. -/
theorem c5_scenarios :
    (init idDCS ⟨1, 1⟩ ⟨0, 0⟩ 100).apply ⟨0, 0, 1⟩ = .ok ⟨0, 0⟩ ∧
    (init idDCS ⟨1, 1⟩ ⟨0, 0⟩ 100).apply ⟨0, 0, -1⟩ =
      .error GeometryError.notIntersecting ∧
    (init idDCS ⟨1, 1⟩ ⟨0, 0⟩ 100).applyBatch [⟨0, 0, 1⟩, ⟨0, 0, -1⟩, ⟨1, 1, 1⟩] =
      [⟨0, 0⟩, ⟨-1, -1⟩, ⟨100, 100⟩] := by
  rw [init_idDCS]
  refine ⟨?_, ?_, ?_⟩
  · rw [apply_of_pos (by norm_num [Vec3.dot])]
    norm_num [Vec3.dot]
  · exact apply_of_nonpos (by norm_num [Vec3.dot])
  · simp only [applyBatch, List.map_cons, List.map_nil]
    rw [apply_of_pos (by norm_num [Vec3.dot]),
      apply_of_nonpos (by norm_num [Vec3.dot]),
      apply_of_pos (by norm_num [Vec3.dot])]
    norm_num [Vec3.dot]

/-- Dot product after scaling the left argument. -/
theorem Vec3.dot_smul_left (l : ℝ) (a b : Vec3) :
    (Vec3.smul l a).dot b = l * a.dot b := by
  simp only [Vec3.smul, Vec3.dot]
  ring

/-- The identity-like transform with square pixel pitch `p`: stored fields. -/
theorem init_idDCS_pixel (p : ℝ) (origin : Vec2) (D : ℝ) :
    FromBeamVectorToDetector.init idDCS ⟨p, p⟩ origin D =
      ⟨⟨1 / p, 0, 0⟩, ⟨0, 1 / p, 0⟩, ⟨0, 0, 1⟩, origin, D⟩ := by
  simp [FromBeamVectorToDetector.init, idDCS, DetectorCoordinateSystem.get_x_axis,
    DetectorCoordinateSystem.get_y_axis, DetectorCoordinateSystem.get_normal,
    Vec3.normalize_ex, Vec3.normalize_ey, Vec3.normalize_ez, Vec3.divScalar,
    one_div]

open FromBeamVectorToDetector in
/-- Claim C3: for every transform and input sequence, the batch `apply`
returns a sequence of the same length, index-aligned: where the scalar
`apply` succeeds the batch holds the scalar result, and where it fails the
batch holds `(-1, -1)`. -/
theorem c3_batch_alignment :
    ∀ (t : FromBeamVectorToDetector) (s1s : List Vec3),
      (t.applyBatch s1s).length = s1s.length ∧
      ∀ (i : ℕ) (v : Vec3), s1s[i]? = some v →
        (∀ r, t.apply v = .ok r → (t.applyBatch s1s)[i]? = some r) ∧
        (∀ e, t.apply v = .error e → (t.applyBatch s1s)[i]? = some ⟨-1, -1⟩) := by
  intro t s1s
  refine ⟨applyBatch_length t s1s, fun i v hv => ⟨fun r hr => ?_, fun e he => ?_⟩⟩
  · rw [applyBatch_getElem?, hv]
    simp [hr]
  · rw [applyBatch_getElem?, hv]
    simp [he]

/-- Witness for C3 on a two-element batch mixing a valid and an invalid
direction. -/
theorem c3_batch_alignment_witness :
    (FromBeamVectorToDetector.applyBatch ⟨⟨1, 0, 0⟩, ⟨0, 1, 0⟩, ⟨0, 0, 1⟩, ⟨0, 0⟩, 100⟩
        [⟨0, 0, 1⟩, ⟨0, 0, -1⟩]).length =
      ([⟨0, 0, 1⟩, ⟨0, 0, -1⟩] : List Vec3).length ∧
    (FromBeamVectorToDetector.applyBatch ⟨⟨1, 0, 0⟩, ⟨0, 1, 0⟩, ⟨0, 0, 1⟩, ⟨0, 0⟩, 100⟩
        [⟨0, 0, 1⟩, ⟨0, 0, -1⟩])[0]? = some ⟨0, 0⟩ ∧
    (FromBeamVectorToDetector.applyBatch ⟨⟨1, 0, 0⟩, ⟨0, 1, 0⟩, ⟨0, 0, 1⟩, ⟨0, 0⟩, 100⟩
        [⟨0, 0, 1⟩, ⟨0, 0, -1⟩])[1]? = some ⟨-1, -1⟩ := by
  have h := c3_batch_alignment ⟨⟨1, 0, 0⟩, ⟨0, 1, 0⟩, ⟨0, 0, 1⟩, ⟨0, 0⟩, 100⟩
    [⟨0, 0, 1⟩, ⟨0, 0, -1⟩]
  refine ⟨h.1, ?_, ?_⟩
  · refine (h.2 0 ⟨0, 0, 1⟩ rfl).1 ⟨0, 0⟩ ?_
    rw [FromBeamVectorToDetector.apply_of_pos (by norm_num [Vec3.dot])]
    norm_num [Vec3.dot]
  · exact (h.2 1 ⟨0, 0, -1⟩ rfl).2 GeometryError.notIntersecting
      (FromBeamVectorToDetector.apply_of_nonpos (by norm_num [Vec3.dot]))

open FromBeamVectorToDetector in
/-- Claim C6: the scalar `apply` is invariant under positive scaling of its
input: for `l > 0` the forward-direction guard holds on `l • s1` exactly when
it holds on `s1`, and when it does the results agree. -/
theorem c6_scale_invariance :
    ∀ (t : FromBeamVectorToDetector) (s1 : Vec3) (l : ℝ), 0 < l →
      ((0 < t.distance * (Vec3.smul l s1).dot t.normal ↔
        0 < t.distance * s1.dot t.normal) ∧
       (0 < t.distance * s1.dot t.normal →
        t.apply (Vec3.smul l s1) = t.apply s1)) := by
  intro t s1 l hl
  have hl0 : l ≠ 0 := ne_of_gt hl
  have hiff : 0 < t.distance * (Vec3.smul l s1).dot t.normal ↔
      0 < t.distance * s1.dot t.normal := by
    rw [Vec3.dot_smul_left, mul_left_comm]
    exact mul_pos_iff_of_pos_left hl
  refine ⟨hiff, fun h => ?_⟩
  rw [apply_of_pos (hiff.mpr h), apply_of_pos h]
  simp only [Except.ok.injEq, Vec2.mk.injEq, Vec3.dot_smul_left]
  constructor <;>
    · rw [mul_left_comm, mul_div_mul_left _ _ hl0]

/-- Witness for C6 at the world-axes transform with `s1 = (1, 2, 1)` and
scale factor 2. -/
theorem c6_scale_invariance_witness :
    FromBeamVectorToDetector.apply ⟨⟨1, 0, 0⟩, ⟨0, 1, 0⟩, ⟨0, 0, 1⟩, ⟨0, 0⟩, 100⟩
        (Vec3.smul 2 ⟨1, 2, 1⟩) =
      FromBeamVectorToDetector.apply ⟨⟨1, 0, 0⟩, ⟨0, 1, 0⟩, ⟨0, 0, 1⟩, ⟨0, 0⟩, 100⟩
        ⟨1, 2, 1⟩ :=
  (c6_scale_invariance ⟨⟨1, 0, 0⟩, ⟨0, 1, 0⟩, ⟨0, 0, 1⟩, ⟨0, 0⟩, 100⟩ ⟨1, 2, 1⟩ 2
    (by norm_num)).2 (by norm_num [Vec3.dot])

open FromBeamVectorToDetector in
/-- Claim C7: for a fixed beam vector and two transforms identical except for
the origin, if the zero-origin transform succeeds then the `(ox, oy)`-origin
transform succeeds with the result shifted by exactly `(ox, oy)`. -/
theorem c7_origin_shift :
    ∀ (xa ya n : Vec3) (d ox oy : ℝ) (s1 : Vec3) (r : Vec2),
      FromBeamVectorToDetector.apply ⟨xa, ya, n, ⟨0, 0⟩, d⟩ s1 = .ok r →
      FromBeamVectorToDetector.apply ⟨xa, ya, n, ⟨ox, oy⟩, d⟩ s1 =
        .ok ⟨r.x + ox, r.y + oy⟩ := by
  intro xa ya n d ox oy s1 r hr
  obtain ⟨hg, hrv⟩ := apply_ok_iff.mp hr
  have hg2 : 0 < (⟨xa, ya, n, ⟨ox, oy⟩, d⟩ :
      FromBeamVectorToDetector).distance * s1.dot (⟨xa, ya, n, ⟨ox, oy⟩, d⟩ :
      FromBeamVectorToDetector).normal := hg
  rw [apply_of_pos hg2, hrv]
  simp only [Except.ok.injEq, Vec2.mk.injEq]
  constructor <;> ring

/-- Witness for C7: shifting the origin of the world-axes transform by
`(3, 4)` shifts the image of `(1, 2, 1)` from `(100, 200)` to `(103, 204)`. -/
theorem c7_origin_shift_witness :
    FromBeamVectorToDetector.apply ⟨⟨1, 0, 0⟩, ⟨0, 1, 0⟩, ⟨0, 0, 1⟩, ⟨3, 4⟩, 100⟩
        ⟨1, 2, 1⟩ = .ok ⟨103, 204⟩ := by
  have hbase : FromBeamVectorToDetector.apply
      ⟨⟨1, 0, 0⟩, ⟨0, 1, 0⟩, ⟨0, 0, 1⟩, ⟨0, 0⟩, 100⟩ ⟨1, 2, 1⟩ =
      .ok ⟨100, 200⟩ := by
    rw [FromBeamVectorToDetector.apply_of_pos (by norm_num [Vec3.dot])]
    norm_num [Vec3.dot]
  have h := c7_origin_shift ⟨1, 0, 0⟩ ⟨0, 1, 0⟩ ⟨0, 0, 1⟩ 100 3 4 ⟨1, 2, 1⟩
    ⟨100, 200⟩ hbase
  norm_num at h
  exact h

open FromBeamVectorToDetector in
/-- Claim C8: for the identity-like transform of P2 with origin `(0, 0)` and
a valid `s1`, replacing pixel size `(1, 1)` by `(p, p)` (nonzero pitch)
multiplies both result components by `1 / p`. -/
theorem c8_pixel_scaling :
    ∀ (D p a b c : ℝ), p ≠ 0 → 0 < D * c → ∀ r : Vec2,
      (init idDCS ⟨1, 1⟩ ⟨0, 0⟩ D).apply ⟨a, b, c⟩ = .ok r →
      (init idDCS ⟨p, p⟩ ⟨0, 0⟩ D).apply ⟨a, b, c⟩ =
        .ok ⟨1 / p * r.x, 1 / p * r.y⟩ := by
  intro D p a b c hp hDc r hr
  have hc : c ≠ 0 := by
    intro h
    rw [h, mul_zero] at hDc
    exact lt_irrefl 0 hDc
  rw [init_idDCS] at hr
  obtain ⟨hg, hrv⟩ := apply_ok_iff.mp hr
  rw [init_idDCS_pixel]
  have hg2 : 0 < (⟨⟨1 / p, 0, 0⟩, ⟨0, 1 / p, 0⟩, ⟨0, 0, 1⟩, ⟨0, 0⟩, D⟩ :
      FromBeamVectorToDetector).distance *
      Vec3.dot ⟨a, b, c⟩ (⟨⟨1 / p, 0, 0⟩, ⟨0, 1 / p, 0⟩, ⟨0, 0, 1⟩, ⟨0, 0⟩, D⟩ :
      FromBeamVectorToDetector).normal := by
    simpa [Vec3.dot] using hDc
  rw [apply_of_pos hg2, hrv]
  simp only [Vec3.dot, Except.ok.injEq, Vec2.mk.injEq]
  constructor <;>
    · field_simp
      try ring

/-- Witness for C8: with `D = 100`, `p = 2` and `s1 = (1, 2, 1)`, the result
`(100, 200)` of the unit-pitch transform becomes `(50, 100)`. -/
theorem c8_pixel_scaling_witness :
    (FromBeamVectorToDetector.init idDCS ⟨2, 2⟩ ⟨0, 0⟩ 100).apply ⟨1, 2, 1⟩ =
      .ok ⟨50, 100⟩ := by
  have hbase : (FromBeamVectorToDetector.init idDCS ⟨1, 1⟩ ⟨0, 0⟩ 100).apply
      ⟨1, 2, 1⟩ = .ok ⟨100, 200⟩ := by
    rw [init_idDCS, FromBeamVectorToDetector.apply_of_pos (by norm_num [Vec3.dot])]
    norm_num [Vec3.dot]
  have h := c8_pixel_scaling 100 2 1 2 1 (by norm_num) (by norm_num) ⟨100, 200⟩ hbase
  norm_num at h
  exact h

open FromBeamVectorToDetector in
/-- Claim C9: any transform with `distance = 0` — in particular the
default-constructed one, whose axis fields are left uninitialised and are
therefore quantified here — fails the forward-direction check
(`0 * dot(s1, normal) > 0` is never true) for every beam vector, and its
batch `apply` returns `(-1, -1)` at every index. -/
theorem c9_default_distance_zero :
    ∀ (t : FromBeamVectorToDetector), t.distance = 0 →
      (∀ s1 : Vec3, t.apply s1 = .error GeometryError.notIntersecting) ∧
      (∀ s1s : List Vec3,
        t.applyBatch s1s = List.replicate s1s.length ⟨-1, -1⟩) := by
  intro t ht
  have hall : ∀ s1 : Vec3, t.apply s1 = .error GeometryError.notIntersecting := by
    intro s1
    apply apply_of_nonpos
    rw [ht, zero_mul]
    exact lt_irrefl 0
  refine ⟨hall, fun s1s => ?_⟩
  refine List.eq_replicate_iff.mpr ⟨applyBatch_length t s1s, fun b hb => ?_⟩
  simp only [applyBatch, List.mem_map] at hb
  obtain ⟨v, hv, rfl⟩ := hb
  rw [hall v]

/-- Witness for C9 at the all-zero transform state (`distance = 0`). -/
theorem c9_default_distance_zero_witness :
    FromBeamVectorToDetector.apply ⟨⟨0, 0, 0⟩, ⟨0, 0, 0⟩, ⟨0, 0, 0⟩, ⟨0, 0⟩, 0⟩
        ⟨1, 2, 3⟩ = .error GeometryError.notIntersecting ∧
    FromBeamVectorToDetector.applyBatch ⟨⟨0, 0, 0⟩, ⟨0, 0, 0⟩, ⟨0, 0, 0⟩, ⟨0, 0⟩, 0⟩
        [⟨1, 2, 3⟩, ⟨0, 0, 1⟩] =
      List.replicate ([⟨1, 2, 3⟩, ⟨0, 0, 1⟩] : List Vec3).length ⟨-1, -1⟩ := by
  have h := c9_default_distance_zero
    ⟨⟨0, 0, 0⟩, ⟨0, 0, 0⟩, ⟨0, 0, 0⟩, ⟨0, 0⟩, 0⟩ rfl
  exact ⟨h.1 ⟨1, 2, 3⟩, h.2 [⟨1, 2, 3⟩, ⟨0, 0, 1⟩]⟩

open FromBeamVectorToDetector in
/-- Claim C10: the division in the scalar `apply` is fully guarded: when the
forward-direction check passes, `dot(s1, normal)` is nonzero (so, in
particular, whenever a result is returned the divisor was nonzero), and
every call either raises the `GeometryError` or returns a result. -/
theorem c10_division_guarded :
    ∀ (t : FromBeamVectorToDetector) (s1 : Vec3),
      (0 < t.distance * s1.dot t.normal → s1.dot t.normal ≠ 0) ∧
      (∀ r, t.apply s1 = .ok r → s1.dot t.normal ≠ 0) ∧
      (t.apply s1 = .error GeometryError.notIntersecting ∨
        ∃ r, t.apply s1 = .ok r) := by
  intro t s1
  have hguard : 0 < t.distance * s1.dot t.normal → s1.dot t.normal ≠ 0 := by
    intro h hz
    rw [hz, mul_zero] at h
    exact lt_irrefl 0 h
  refine ⟨hguard, fun r hr => hguard (apply_ok_iff.mp hr).1, ?_⟩
  by_cases h : 0 < t.distance * s1.dot t.normal
  · exact Or.inr ⟨_, apply_of_pos h⟩
  · exact Or.inl (apply_of_nonpos h)

/-- Witness for C10: at the world-axes transform and `s1 = (0, 0, 1)` the
guard holds, so the divisor is nonzero. -/
theorem c10_division_guarded_witness :
    Vec3.dot ⟨0, 0, 1⟩
      (⟨⟨1, 0, 0⟩, ⟨0, 1, 0⟩, ⟨0, 0, 1⟩, ⟨0, 0⟩, 100⟩ :
        FromBeamVectorToDetector).normal ≠ 0 :=
  (c10_division_guarded ⟨⟨1, 0, 0⟩, ⟨0, 1, 0⟩, ⟨0, 0, 1⟩, ⟨0, 0⟩, 100⟩
    ⟨0, 0, 1⟩).1 (by norm_num [Vec3.dot])

end Dials

end
